import Mathlib

/-!
Verification of `examples/pepseption/hello.py`, a one-shot script that
issues `requests.get("https://api.github.com")` and prints the response
status code and the `X-RateLimit-Remaining` header (with fallback `"N/A"`).

The script is embedded as a pure function from the outcome of the single
network call (a failure, or a response carrying a status code and a header
mapping) to the observable process outcome: the requests it issued, the
lines written to standard output and to the error stream, and the exit code.
-/

namespace Pepseption

/-- An outbound HTTP request as assembled by `requests.get(url)`:
method, URL, optional body, extra request headers, query parameters,
and optional basic-auth credentials. -/
structure HttpRequest where
  method : String
  url : String
  body : Option String
  reqHeaders : List (String × String)
  queryParams : List (String × String)
  auth : Option (String × String)
deriving Repr, DecidableEq

/-- The constant request built by line 10 of `hello.py`:
`requests.get("https://api.github.com")` — a GET with no body, no extra
headers, no query parameters and no authentication. -/
def theRequest : HttpRequest :=
  { method := "GET"
    url := "https://api.github.com"
    body := none
    reqHeaders := []
    queryParams := []
    auth := none }

/-- The request as a function of the process environment and the command
line. `hello.py` consults neither, so the result is constant. -/
def buildRequest (env : List (String × String)) (argv : List String) :
    HttpRequest :=
  theRequest

/-- An HTTP response as seen by the script: a numeric status code and a
mapping from header names to header values (`response.headers`). -/
structure HttpResponse where
  status_code : Nat
  headers : List (String × String)
deriving Repr, DecidableEq

/-- The failure modes of the single network call; none is caught by the
script, so each aborts the process. -/
inductive NetworkError where
  | connectionError
  | dnsFailure
  | timeout
  | malformedResponse
deriving Repr, DecidableEq

/-- The unhandled-exception report the Python runtime writes to the error
stream for each failure mode of the `requests` call. -/
def errorDiagnostic : NetworkError → String
  | .connectionError => "requests.exceptions.ConnectionError"
  | .dnsFailure => "requests.exceptions.ConnectionError: Failed to resolve"
  | .timeout => "requests.exceptions.ConnectTimeout"
  | .malformedResponse => "requests.exceptions.ChunkedEncodingError"

/-- Python `str.lower()` as the `CaseInsensitiveDict` applies it to header
names: each character lowercased (header names are ASCII, where this agrees
with full Unicode lowercasing). -/
def lowercase (s : String) : String :=
  String.mk (s.data.map Char.toLower)

/-- `response.headers.get(key, default)`: the lookup in a requests
`CaseInsensitiveDict` compares header names after lowercasing, and returns
`default` only when no name matches. -/
def headersGet (hs : List (String × String)) (key dflt : String) : String :=
  match hs.find? (fun p => lowercase p.1 == lowercase key) with
  | some p => p.2
  | none => dflt

/-- The observable outcome of one execution: the outbound requests issued,
the lines printed to standard output and to the error stream, and the exit
code of the process. -/
structure ProcessOutcome where
  requestsSent : List HttpRequest
  stdout : List String
  stderr : List String
  exitCode : Nat
deriving Repr, DecidableEq

/-- The whole script, as a function of the environment, the command line
and the result of its single network call.

On success it executes its two `print` statements
(`f"GitHub API Status: {response.status_code}"` and
`f"Rate Limit: {response.headers.get('X-RateLimit-Remaining', 'N/A')}"`)
and the process exits with code 0. On failure the exception propagates:
neither print runs, the runtime writes the diagnostic to the error stream,
and the process exits with code 1. -/
def hello (env : List (String × String)) (argv : List String)
    (net : Except NetworkError HttpResponse) : ProcessOutcome :=
  match net with
  | .error e =>
    { requestsSent := [buildRequest env argv]
      stdout := []
      stderr := [errorDiagnostic e]
      exitCode := 1 }
  | .ok response =>
    { requestsSent := [buildRequest env argv]
      stdout :=
        ["GitHub API Status: " ++ toString response.status_code,
         "Rate Limit: " ++
           headersGet response.headers "X-RateLimit-Remaining" "N/A"]
      stderr := []
      exitCode := 0 }

/-- If the case-insensitive search over the header mapping finds an entry,
`headersGet` returns that entry's value. -/
theorem headersGet_eq_of_find (hs : List (String × String))
    (key dflt n v : String)
    (h : hs.find? (fun p => lowercase p.1 == lowercase key) = some (n, v)) :
    headersGet hs key dflt = v := by
  simp [headersGet, h]

/-- If no header name matches the key case-insensitively, `headersGet`
returns the default. -/
theorem headersGet_eq_default (hs : List (String × String))
    (key dflt : String)
    (h : ∀ p ∈ hs, lowercase p.1 ≠ lowercase key) :
    headersGet hs key dflt = dflt := by
  have hnone : hs.find? (fun p => lowercase p.1 == lowercase key) = none := by
    rw [List.find?_eq_none]
    intro p hp
    simpa using h p hp
  simp [headersGet, hnone]

/-- The header key of line 12, lowercased as the `CaseInsensitiveDict`
lookup does. -/
theorem rateLimitKey_toLower :
    lowercase "X-RateLimit-Remaining" = "x-ratelimit-remaining" := by decide

/-- Appending to a common left part is injective on strings. -/
theorem string_append_left_cancel (a b c : String) (h : a ++ b = a ++ c) :
    b = c := by
  have hd : a.data ++ b.data = a.data ++ c.data := by
    rw [← String.data_append, ← String.data_append, h]
  exact String.ext (List.append_cancel_left hd)

/-- Claim C1: if the GET returns a response with status code 200 whose
header mapping carries `X-RateLimit-Remaining` with value `"42"`, the
script prints exactly the two lines `GitHub API Status: 200` and
`Rate Limit: 42`, in that order, and nothing else (the error stream stays
empty). -/
theorem hello_happy_path (env : List (String × String)) (argv : List String)
    (r : HttpResponse) (n : String)
    (hst : r.status_code = 200)
    (hfind : r.headers.find?
        (fun p => lowercase p.1 == "x-ratelimit-remaining") = some (n, "42")) :
    (hello env argv (.ok r)).stdout =
      ["GitHub API Status: 200", "Rate Limit: 42"] ∧
    (hello env argv (.ok r)).stderr = [] := by
  have hv : headersGet r.headers "X-RateLimit-Remaining" "N/A" = "42" := by
    apply headersGet_eq_of_find _ _ _ n
    rw [rateLimitKey_toLower]
    exact hfind
  constructor
  · have hs : (hello env argv (.ok r)).stdout =
        ["GitHub API Status: " ++ toString r.status_code,
         "Rate Limit: " ++ headersGet r.headers "X-RateLimit-Remaining" "N/A"] :=
      rfl
    rw [hs, hst, hv]
    rfl
  · rfl

/-- Witness for C1 at the concrete happy-path response. -/
theorem hello_happy_path_witness :
    (hello [] [] (.ok
        (HttpResponse.mk 200 [("X-RateLimit-Remaining", "42")]))).stdout =
      ["GitHub API Status: 200", "Rate Limit: 42"] ∧
    (hello [] [] (.ok
        (HttpResponse.mk 200 [("X-RateLimit-Remaining", "42")]))).stderr = [] :=
  hello_happy_path [] [] (HttpResponse.mk 200 [("X-RateLimit-Remaining", "42")])
    "X-RateLimit-Remaining" rfl (by decide)

/-- Claim C2: whenever no header of the response matches
`X-RateLimit-Remaining` (case-insensitively), the second printed line is
exactly `Rate Limit: N/A` while the first line still reports the status
code. -/
theorem hello_missing_header (env : List (String × String))
    (argv : List String) (r : HttpResponse)
    (h : ∀ p ∈ r.headers, lowercase p.1 ≠ "x-ratelimit-remaining") :
    (hello env argv (.ok r)).stdout =
      ["GitHub API Status: " ++ toString r.status_code, "Rate Limit: N/A"] := by
  have hv : headersGet r.headers "X-RateLimit-Remaining" "N/A" = "N/A" := by
    apply headersGet_eq_default
    intro p hp
    rw [rateLimitKey_toLower]
    exact h p hp
  have hs : (hello env argv (.ok r)).stdout =
      ["GitHub API Status: " ++ toString r.status_code,
       "Rate Limit: " ++ headersGet r.headers "X-RateLimit-Remaining" "N/A"] :=
    rfl
  rw [hs, hv]
  rfl

/-- Witness for C2 at a response carrying only an unrelated header. -/
theorem hello_missing_header_witness :
    (hello [] [] (.ok
        (HttpResponse.mk 200 [("Content-Type", "text/html")]))).stdout =
      ["GitHub API Status: 200", "Rate Limit: N/A"] :=
  hello_missing_header [] [] (HttpResponse.mk 200 [("Content-Type", "text/html")])
    (by decide)

/-- Claim C3: when the single network call fails, with any failure mode,
no standard-output line is produced, the process exits nonzero, and the
error stream carries a nonempty diagnostic. -/
theorem hello_failure_atomicity (env : List (String × String))
    (argv : List String) (e : NetworkError) :
    (hello env argv (.error e)).stdout = [] ∧
    (hello env argv (.error e)).exitCode ≠ 0 ∧
    (hello env argv (.error e)).stderr = [errorDiagnostic e] ∧
    errorDiagnostic e ≠ "" := by
  refine ⟨rfl, by simp [hello], rfl, ?_⟩
  cases e <;> decide

/-- Claim C4: for a response with any non-200 status, the script prints
`GitHub API Status: ` followed by that code, then the rate-limit line per
the header lookup, and the second line is the very line a 200 response
with the same headers would get. -/
theorem hello_non_200 (env : List (String × String)) (argv : List String)
    (r : HttpResponse) (h : r.status_code ≠ 200) :
    (hello env argv (.ok r)).stdout =
      ["GitHub API Status: " ++ toString r.status_code,
       "Rate Limit: " ++ headersGet r.headers "X-RateLimit-Remaining" "N/A"] ∧
    (hello env argv (.ok r)).stdout.get? 1 =
      (hello env argv (.ok (HttpResponse.mk 200 r.headers))).stdout.get? 1 :=
  ⟨rfl, rfl⟩

/-- Witness for C4 at a 403 response. -/
theorem hello_non_200_witness :
    (hello [] [] (.ok (HttpResponse.mk 403 []))).stdout =
      ["GitHub API Status: 403", "Rate Limit: N/A"] ∧
    (hello [] [] (.ok (HttpResponse.mk 403 []))).stdout.get? 1 =
      (hello [] [] (.ok (HttpResponse.mk 200 []))).stdout.get? 1 :=
  hello_non_200 [] [] (HttpResponse.mk 403 []) (by decide)

/-- Claim C5: on any successful call the standard output is exactly two
lines, the status template line first and the rate-limit template line
second, each embedding its one dynamic value. -/
theorem hello_output_shape (env : List (String × String))
    (argv : List String) (r : HttpResponse) :
    (hello env argv (.ok r)).stdout =
      ["GitHub API Status: " ++ toString r.status_code,
       "Rate Limit: " ++ headersGet r.headers "X-RateLimit-Remaining" "N/A"] :=
  rfl

/-- Claim C6: every execution, whatever its environment, command line and
network outcome, issues exactly one request, and that request is a GET to
the fixed URL with no body, no extra headers, no query parameters and no
authentication. -/
theorem hello_request_constant (env : List (String × String))
    (argv : List String) (net : Except NetworkError HttpResponse) :
    (hello env argv net).requestsSent = [theRequest] ∧
    theRequest.method = "GET" ∧
    theRequest.url = "https://api.github.com" ∧
    theRequest.body = none ∧
    theRequest.reqHeaders = [] ∧
    theRequest.queryParams = [] ∧
    theRequest.auth = none := by
  refine ⟨?_, rfl, rfl, rfl, rfl, rfl, rfl⟩
  cases net <;> rfl

/-- Claim C7: two executions receiving responses with the same status code
and the same header mapping produce identical standard output, regardless
of environment or command line — no hidden state influences the output. -/
theorem hello_deterministic (env1 env2 : List (String × String))
    (argv1 argv2 : List String) (r1 r2 : HttpResponse)
    (hst : r1.status_code = r2.status_code) (hh : r1.headers = r2.headers) :
    (hello env1 argv1 (.ok r1)).stdout = (hello env2 argv2 (.ok r2)).stdout := by
  simp [hello, hst, hh]

/-- Witness for C7: two runs with different environments but the same
response print the same lines. -/
theorem hello_deterministic_witness :
    (hello [("HOME", "/root")] ["hello.py"]
        (.ok (HttpResponse.mk 200 []))).stdout =
    (hello [] [] (.ok (HttpResponse.mk 200 []))).stdout :=
  hello_deterministic [("HOME", "/root")] [] ["hello.py"] []
    (HttpResponse.mk 200 []) (HttpResponse.mk 200 []) rfl rfl

/-- Claim C8: if the header mapping carries the rate-limit header under
any capitalization, the lookup finds it: its value (here any value other
than the placeholder itself) is printed on the second line, which is then
not the placeholder line. -/
theorem hello_case_insensitive (env : List (String × String))
    (argv : List String) (r : HttpResponse) (n v : String)
    (hfind : r.headers.find?
        (fun p => lowercase p.1 == "x-ratelimit-remaining") = some (n, v))
    (hv : v ≠ "N/A") :
    (hello env argv (.ok r)).stdout.get? 1 = some ("Rate Limit: " ++ v) ∧
    (hello env argv (.ok r)).stdout.get? 1 ≠ some "Rate Limit: N/A" := by
  have hvv : headersGet r.headers "X-RateLimit-Remaining" "N/A" = v := by
    apply headersGet_eq_of_find _ _ _ n
    rw [rateLimitKey_toLower]
    exact hfind
  have hline : (hello env argv (.ok r)).stdout.get? 1 =
      some ("Rate Limit: " ++ headersGet r.headers "X-RateLimit-Remaining" "N/A") :=
    rfl
  constructor
  · rw [hline, hvv]
  · rw [hline, hvv]
    intro hcontra
    apply hv
    have heq : "Rate Limit: " ++ v = "Rate Limit: " ++ "N/A" :=
      Option.some.inj hcontra
    exact string_append_left_cancel "Rate Limit: " v "N/A" heq

/-- Witness for C8 at an all-lowercase header name. -/
theorem hello_case_insensitive_witness :
    (hello [] [] (.ok
        (HttpResponse.mk 200 [("x-ratelimit-remaining", "7")]))).stdout.get? 1 =
      some ("Rate Limit: " ++ "7") ∧
    (hello [] [] (.ok
        (HttpResponse.mk 200 [("x-ratelimit-remaining", "7")]))).stdout.get? 1 ≠
      some "Rate Limit: N/A" :=
  hello_case_insensitive [] [] (HttpResponse.mk 200 [("x-ratelimit-remaining", "7")])
    "x-ratelimit-remaining" "7" (by decide) (by decide)

/-- Claim C9: a present header with an empty-string value is printed
verbatim — the second line is `Rate Limit: ` with nothing after the colon,
not the `N/A` placeholder. -/
theorem hello_empty_header_value (env : List (String × String))
    (argv : List String) (sc : Nat) (rest : List (String × String)) :
    (hello env argv (.ok
        (HttpResponse.mk sc (("X-RateLimit-Remaining", "") :: rest)))).stdout =
      ["GitHub API Status: " ++ toString sc, "Rate Limit: "] := by
  have hfind : (("X-RateLimit-Remaining", "") :: rest).find?
      (fun p => lowercase p.1 == lowercase "X-RateLimit-Remaining") =
      some ("X-RateLimit-Remaining", "") := by
    simp [List.find?_cons]
  have hv : headersGet (("X-RateLimit-Remaining", "") :: rest)
      "X-RateLimit-Remaining" "N/A" = "" :=
    headersGet_eq_of_find _ _ _ "X-RateLimit-Remaining" "" hfind
  have hs : (hello env argv (.ok
      (HttpResponse.mk sc (("X-RateLimit-Remaining", "") :: rest)))).stdout =
      ["GitHub API Status: " ++ toString sc,
       "Rate Limit: " ++ headersGet (("X-RateLimit-Remaining", "") :: rest)
         "X-RateLimit-Remaining" "N/A"] :=
    rfl
  rw [hs, hv]
  rfl

/-- Claim C10: whenever a response is received, whatever its status code,
both prints complete, nothing goes to the error stream, and the process
exits with code 0. -/
theorem hello_exit_zero_on_response (env : List (String × String))
    (argv : List String) (r : HttpResponse) :
    (hello env argv (.ok r)).exitCode = 0 ∧
    (hello env argv (.ok r)).stdout.length = 2 ∧
    (hello env argv (.ok r)).stderr = [] :=
  ⟨rfl, rfl, rfl⟩

end Pepseption
